import Mathlib

/-!
# Verification of `edupage-photos-download` (`src/index.js`)

A shallow embedding of the single source file `index.js` of the
`andrej-zirko/edupage-photos-download` repository, together with theorems
settling the specification claims about it.

Modelling conventions:

* Directory listings (`fs.readdir`) are `List String` of filenames.
* Wall time is discrete: the poll loop of `waitForDownloadCompletion` sleeps
  `POLL_INTERVAL` ms per iteration and the directory reads are instantaneous,
  so the k-th poll happens at elapsed time `k * pollInterval` and the loop
  body runs while `k * pollInterval < timeout`.  The snapshots observed are
  given by an oracle `obs : Nat → List String` (`obs 0` is the "before"
  snapshot, `obs (k+1)` the snapshot seen at poll `k`).
* Browser operations are oracles: each may succeed or throw, recorded in
  environment structures (`AdvanceEnv`, `IterEnv`).
* `try`/`finally`/`process.exit` become explicit result structures carrying
  the exit code and whether `browser.close()` ran.
-/

namespace Edupage

/-! ## URL validation (`isValidUrl`, lines 13-20)

`isValidUrl` calls the WHATWG `URL` constructor with no base argument and
returns whether it threw.  `urlAccepts` models that constructor on the
fragment relevant here: input trimming, scheme parsing, and — for the
special schemes — authority parsing with userinfo stripping, forbidden
domain code points, the numeric-host (dotted-decimal IPv4) rule, and port
validation.  With no base, every string without a scheme (in particular
every relative URL reference) fails.  Outside the modelled fragment:
IPv6 bracket hosts and percent-encoded host bytes (the model rejects
them, the constructor sometimes accepts), and IDNA of non-ASCII domains,
hex/octal IPv4 radix forms and the rare failure modes of `file` and
non-special schemes (the model accepts them). -/

def isAsciiAlphaChar (c : Char) : Bool :=
  (97 ≤ c.toNat && c.toNat ≤ 122) || (65 ≤ c.toNat && c.toNat ≤ 90)

def isAsciiDigitChar (c : Char) : Bool :=
  48 ≤ c.toNat && c.toNat ≤ 57

def isSchemeChar (c : Char) : Bool :=
  isAsciiAlphaChar c || isAsciiDigitChar c || c == '+' || c == '-' || c == '.'

/-- A valid URL scheme: an ASCII alpha followed by alphanumerics, `+`, `-`, `.`. -/
def validScheme : List Char → Bool
  | [] => false
  | c :: cs => isAsciiAlphaChar c && cs.all isSchemeChar

/-- Split a character list at the first `:`, returning the parts before and
after it, or `none` when no colon occurs. -/
def splitAtColon : List Char → Option (List Char × List Char)
  | [] => none
  | c :: cs =>
    if c = ':' then some ([], cs)
    else
      match splitAtColon cs with
      | none => none
      | some (a, b) => some (c :: a, b)

def lowerList (l : List Char) : List Char := l.map Char.toLower

/-- The WHATWG special schemes (minus `file`, treated separately). -/
def specialSchemesNoFile : List (List Char) :=
  ["http".data, "https".data, "ws".data, "wss".data, "ftp".data]

def dropLeadingSlashes : List Char → List Char
  | '/' :: cs => dropLeadingSlashes cs
  | '\\' :: cs => dropLeadingSlashes cs
  | l => l

def isC0ControlOrSpace (c : Char) : Bool := c.toNat ≤ 32

def isAsciiTabOrNewline (c : Char) : Bool :=
  c.toNat == 9 || c.toNat == 10 || c.toNat == 13

/-- Input preprocessing of the URL constructor: remove leading and
trailing C0 controls and spaces, then remove every ASCII tab and
newline. -/
def preprocessUrlInput (l : List Char) : List Char :=
  (((l.dropWhile isC0ControlOrSpace).reverse.dropWhile
      isC0ControlOrSpace).reverse).filter (fun c => !isAsciiTabOrNewline c)

/-- The authority candidate after a special scheme: skip every leading `/`
or `\`, then take up to the next `/`, `\`, `?` or `#`. -/
def authorityChars (l : List Char) : List Char :=
  (dropLeadingSlashes l).takeWhile
    (fun c => !(c == '/' || c == '\\' || c == '?' || c == '#'))

/-- The forbidden domain code points of the URL Standard: controls, space,
delete, and `#`, `%`, `/`, `:`, `<`, `>`, `?`, `@`, `[`, `\`, `]`, `^`,
`|`. -/
def forbiddenDomainChar (c : Char) : Bool :=
  c.toNat ≤ 32 || c.toNat == 127 || c == '#' || c == '%' || c == '/' ||
  c == ':' || c == '<' || c == '>' || c == '?' || c == '@' || c == '[' ||
  c == '\\' || c == ']' || c == '^' || c == '|'

/-- Strip the userinfo: everything up to and including the last `@`. -/
def afterLastAt (l : List Char) : List Char :=
  (l.reverse.takeWhile (fun c => !(c == '@'))).reverse

/-- Decimal value of a digit string. -/
def digitsToNat (l : List Char) : Nat :=
  l.foldl (fun acc c => acc * 10 + (c.toNat - 48)) 0

/-- A valid port: only digits, and when nonempty its value is at most
65535. -/
def validPort (p : List Char) : Bool :=
  p.all isAsciiDigitChar && (p.isEmpty || digitsToNat p ≤ 65535)

/-- Split a host at every `.` into its labels. -/
def splitOnDot : List Char → List (List Char)
  | [] => [[]]
  | c :: cs =>
    if c = '.' then [] :: splitOnDot cs
    else
      match splitOnDot cs with
      | [] => [[c]]
      | q :: qs => (c :: q) :: qs

/-- The dot labels of a host, with one trailing empty label removed (a
lone trailing dot), as the IPv4 parser does. -/
def ipv4Parts (h : List Char) : List (List Char) :=
  let ps := splitOnDot h
  if ps.length > 1 && ps.getLast? == some [] then ps.dropLast else ps

/-- The "ends in a number" test of the host parser (decimal fragment):
the last dot label is nonempty and all digits. -/
def endsInNumber (h : List Char) : Bool :=
  match (ipv4Parts h).getLast? with
  | none => false
  | some l => !l.isEmpty && l.all isAsciiDigitChar

/-- Dotted-decimal IPv4 validity: at most four nonempty digit labels,
every label but the last at most 255, and the last below `256 ^ (5 -
count)`. -/
def validIPv4 (h : List Char) : Bool :=
  (ipv4Parts h).length ≤ 4 &&
  (ipv4Parts h).all (fun q => !q.isEmpty && q.all isAsciiDigitChar) &&
  (ipv4Parts h).dropLast.all (fun q => digitsToNat q ≤ 255) &&
  (match (ipv4Parts h).getLast? with
   | none => false
   | some q => digitsToNat q < 256 ^ (5 - (ipv4Parts h).length))

/-- A valid special-scheme domain: nonempty, free of forbidden domain
code points, and — when its last label is numeric — a valid dotted
IPv4 address. -/
def validDomain (h : List Char) : Bool :=
  !h.isEmpty && h.all (fun c => !forbiddenDomainChar c) &&
  (!endsInNumber h || validIPv4 h)

/-- Host and port validation of a special-scheme authority: strip the
userinfo, split at the first colon into host and port, and check both. -/
def validSpecialHost (auth : List Char) : Bool :=
  match splitAtColon (afterLastAt auth) with
  | none => validDomain (afterLastAt auth)
  | some (h, p) => validDomain h && validPort p

/-- Models the WHATWG `URL(input)` constructor (no base argument) on the
fragment described in the section header: trim the input, require a valid
scheme before a `:`, and for a special scheme other than `file` require a
valid host (and port) in the authority.  Any string without a scheme — in
particular every relative URL reference — makes the constructor throw. -/
def urlAccepts (input : List Char) : Bool :=
  match splitAtColon (preprocessUrlInput input) with
  | none => false
  | some (scheme, rest) =>
    validScheme scheme &&
    (if lowerList scheme ∈ specialSchemesNoFile then
      validSpecialHost (authorityChars rest)
     else true)

/-- Embeds `isValidUrl` of `index.js` (lines 13-20): `new URL(url)` in a
`try`/`catch`, returning whether construction succeeded. -/
def isValidUrl (s : String) : Bool := urlAccepts s.data

/-- Modelled from the spec: "valid absolute/relative-syntax URLs".  A
syntactically valid *relative* URL reference (RFC 3986 relative-ref whose
first segment has no colon): nonempty, built from unreserved / sub-delim /
slash characters, and containing no colon. -/
def specValidRelativeRef (s : String) : Bool :=
  !s.data.isEmpty &&
  s.data.all (fun c =>
    isAsciiAlphaChar c || isAsciiDigitChar c ||
    c == '-' || c == '.' || c == '_' || c == '~' || c == '/' ||
    c == '!' || c == '$' || c == '&' || c == '(' || c == ')' ||
    c == '*' || c == '+' || c == ',' || c == ';' || c == '=') &&
  s.data.all (fun c => !(c == ':'))

/-! ## `checkDirectoryEmpty` (lines 58-63) -/

/-- Embeds `checkDirectoryEmpty` (lines 58-63): reads the directory and throws when it holds any
file.  The directory listing is passed in place of the `fs.readdir` call. -/
def checkDirectoryEmpty (files : List String) : Except String Unit :=
  if files.length > 0 then
    .error "Tartget directory must be empty - aborting"
  else
    .ok ()

/-! ## `waitForDownloadCompletion` (lines 65-78) -/

def DOWNLOAD_TIMEOUT : Nat := 30000
def POLL_INTERVAL : Nat := 500

/-- Embeds `f.endsWith('.crdownload')` on the embedded filename. -/
def endsWithCrdownload (f : String) : Bool :=
  ".crdownload".data.isSuffixOf f.data

/-- Line 71: `filesAfter.filter(f => !filesBefore.includes(f))`. -/
def newFiles (filesBefore filesAfter : List String) : List String :=
  filesAfter.filter (fun f => !filesBefore.contains f)

/-- Line 72: `newFiles.find(f => !f.endsWith('.crdownload'))`. -/
def findCompleted (filesBefore filesAfter : List String) : Option String :=
  (newFiles filesBefore filesAfter).find? (fun f => !endsWithCrdownload f)

/-- Outcome of `waitForDownloadCompletion`: the returned filename together
with the index of the poll that saw it, or the `Download timed out` throw. -/
inductive WaitOutcome where
  | completed (filename : String) (pollIndex : Nat)
  | timedOut
deriving DecidableEq, Repr

/-- Number of loop iterations of the poll loop: the body runs at elapsed
times `k * pollInterval` while that is `< timeout`, i.e. `⌈timeout /
pollInterval⌉` times. -/
def numPolls (timeout pollInterval : Nat) : Nat :=
  (timeout + pollInterval - 1) / pollInterval

/-- The poll loop (lines 69-76), with the remaining iteration count as fuel:
at poll `k` read `obs k`, return the first new non-`.crdownload` file if
any, otherwise sleep and continue. -/
def waitFrom (filesBefore : List String) (obs : Nat → List String) :
    Nat → Nat → WaitOutcome
  | _, 0 => .timedOut
  | k, fuel + 1 =>
    match findCompleted filesBefore (obs k) with
    | some f => .completed f k
    | none => waitFrom filesBefore obs (k + 1) fuel

/-- Embeds `waitForDownloadCompletion(directory)` (lines 65-78): `obs 0` is the
`filesBefore` snapshot taken at call time, `obs (k+1)` the snapshot the
k-th poll observes. -/
def waitForDownloadCompletion (obs : Nat → List String)
    (timeout pollInterval : Nat) : WaitOutcome :=
  waitFrom (obs 0) (fun k => obs (k + 1)) 0 (numPolls timeout pollInterval)

/-! ## `handleNextButton` (lines 100-124)

Each browser operation of the pagination step is an oracle outcome.
`page.waitForSelector` resolves to an element, resolves to `null`, or
throws (e.g. on timeout); `click` succeeds or throws.  The result of the
second `waitForSelector` (for the image link, lines 113-116) is ignored by
the code — only a throw matters there. -/

inductive SelectorResult where
  | found
  | nullResult
  | threw
deriving DecidableEq, Repr

inductive StepResult where
  | ok
  | threw
deriving DecidableEq, Repr

/-- Oracle outcomes for one `handleNextButton` call. -/
structure AdvanceEnv where
  waitNextButton : SelectorResult
  clickNext : StepResult
  waitImageLink : StepResult
deriving DecidableEq, Repr

/-- Embeds `handleNextButton` (lines 100-124): everything runs inside one `try`;
any throw is caught and the function returns `false` ("End of album
reached"); a `null` next container returns `false` (line 108); otherwise
click the container, wait for the image link (a throw there is also
caught), sleep the animation delay, and return `true`. -/
def handleNextButton (env : AdvanceEnv) : Bool :=
  match env.waitNextButton with
  | .threw => false
  | .nullResult => false
  | .found =>
    match env.clickNext with
    | .threw => false
    | .ok =>
      match env.waitImageLink with
      | .threw => false
      | .ok => true

/-! ## The main traversal loop (lines 143-162) -/

/-- Oracle outcomes for one iteration of the `while (true)` loop:
whether `page.click(IMAGE_LINK)` (line 149) throws, the directory
snapshots the subsequent `waitForDownloadCompletion` observes, and the
oracle for the `handleNextButton` call. -/
structure IterEnv where
  clickImageLink : StepResult
  obs : Nat → List String
  advance : AdvanceEnv

/-- Observable events of a run, in order. -/
inductive Event where
  | clickImage
  | downloadComplete (filename : String)
  | advanced
  | endOfGallery
deriving DecidableEq, Repr

inductive FatalError where
  | imageClickError
  | downloadTimeout
deriving DecidableEq, Repr

/-- Result of the `try` block of `main`. -/
inductive RunOutcome where
  | success (reported : Nat)
  | fatal (e : FatalError)
  | outOfEnv
deriving DecidableEq, Repr

def isClickEvent : Event → Bool
  | .clickImage => true
  | _ => false

def isDownloadEvent : Event → Bool
  | .downloadComplete _ => true
  | _ => false

def isAdvancedEvent : Event → Bool
  | .advanced => true
  | _ => false

def countClicks (tr : List Event) : Nat := tr.countP isClickEvent
def countDownloads (tr : List Event) : Nat := tr.countP isDownloadEvent
def countAdvanced (tr : List Event) : Nat := tr.countP isAdvancedEvent

/-- The `while (true)` loop of `main` (lines 147-157) plus the final
completion message (line 159), producing the event trace and the outcome.
`photoCount` is the JS variable of line 145: incremented only after a
successful advance; the reported final count is `photoCount + 1`
(line 159).  An exhausted environment list models a run still going. -/
def mainLoop (timeout pollInterval : Nat) :
    List IterEnv → Nat → List Event × RunOutcome
  | [], _ => ([], .outOfEnv)
  | e :: rest, photoCount =>
    match e.clickImageLink with
    | .threw => ([.clickImage], .fatal .imageClickError)
    | .ok =>
      match waitForDownloadCompletion e.obs timeout pollInterval with
      | .timedOut => ([.clickImage], .fatal .downloadTimeout)
      | .completed f _ =>
        if handleNextButton e.advance then
          (.clickImage :: .downloadComplete f :: .advanced ::
              (mainLoop timeout pollInterval rest (photoCount + 1)).1,
            (mainLoop timeout pollInterval rest (photoCount + 1)).2)
        else
          ([.clickImage, .downloadComplete f, .endOfGallery],
            .success (photoCount + 1))

/-- Observable result of the whole process: exit code (`none` while still
running), whether `browser.close()` ran, and the reported photo count. -/
structure ProcessResult where
  exitCode : Option Nat
  browserClosed : Bool
  reported : Option Nat
deriving DecidableEq, Repr

/-- Embeds `main` from the point the browser session exists (lines 143-162) plus
the top-level `main().catch` (lines 165-168): the `finally` (lines
160-162) closes the browser on both the success and the throwing path;
a propagated error reaches the `catch` and exits 1; normal completion
exits 0 with the reported count. -/
def runAfterBrowser (timeout pollInterval : Nat) (envs : List IterEnv) :
    ProcessResult :=
  match mainLoop timeout pollInterval envs 0 with
  | (_, .success n) => ⟨some 0, true, some n⟩
  | (_, .fatal _) => ⟨some 1, true, none⟩
  | (_, .outOfEnv) => ⟨none, false, none⟩

/-! ## Startup (lines 129-141): `mkdir`, emptiness check -/

/-- Result of the startup phase of `main` (lines 129-141): the exit code
when it aborted, whether `setupBrowser` (line 140) was reached, and the
destination directory contents after the phase. -/
structure StartupResult where
  exitCode : Option Nat
  browserCreated : Bool
  dirContents : List String
deriving DecidableEq, Repr

/-- Embeds `fs.mkdir(downloadPath, \x7b recursive: true \x7d)` (line 131): creates the
directory when absent and leaves an existing one untouched.  The directory
state is `none` (absent) or `some files`. -/
def mkdirRecursive (dir : Option (List String)) : List String :=
  dir.getD []

/-- Lines 129-141 of `main`: make the directory, run
`checkDirectoryEmpty`, and on its throw print the message and
`process.exit(1)` — before `setupBrowser` is ever called. -/
def mainStartup (initialDir : Option (List String)) : StartupResult :=
  let files := mkdirRecursive initialDir
  match checkDirectoryEmpty files with
  | .error _ => ⟨some 1, false, files⟩
  | .ok _ => ⟨none, true, files⟩

/-! ## Argument handling (lines 5-29) and the whole program -/

inductive StartOutcome where
  | exitMissingArg
  | exitInvalidUrl
  | run (baseUrl : String)
deriving DecidableEq, Repr

/-- Lines 5-29: exit 1 when `process.argv.length < 3`; exit 1 when
`isValidUrl(process.argv[2])` is false; otherwise proceed with
`CONFIG.BASE_URL = process.argv[2]`.  No other element of `argv` is read. -/
def programStart (argv : List String) : StartOutcome :=
  if argv.length < 3 then .exitMissingArg
  else
    match argv.get? 2 with
    | some url => if isValidUrl url then .run url else .exitInvalidUrl
    | none => .exitMissingArg

/-- The whole process: argument checks, then startup, then the traversal.
The gallery URL influences the run only through the browser oracles
(`envs`), which encode every page response. -/
def program (argv : List String) (initialDir : Option (List String))
    (timeout pollInterval : Nat) (envs : List IterEnv) : ProcessResult :=
  match programStart argv with
  | .exitMissingArg => ⟨some 1, false, none⟩
  | .exitInvalidUrl => ⟨some 1, false, none⟩
  | .run _ =>
    match (mainStartup initialDir).exitCode with
    | some c => ⟨some c, false, none⟩
    | none => runAfterBrowser timeout pollInterval envs

/-! ## Concrete fixtures used by witness theorems -/

/-- Snapshot oracle: an empty directory in which `photo1.jpg` appears at the
first poll. -/
def obsQuick : Nat → List String := fun n => if n = 0 then [] else ["photo1.jpg"]

/-- Snapshot oracle: the first poll sees only an in-progress marker file,
the second poll also sees the finished file. -/
def obsTwoPolls : Nat → List String := fun n =>
  if n = 0 then ["old.jpg"]
  else if n = 1 then ["old.jpg", "photo1.crdownload"]
  else ["old.jpg", "photo1.crdownload", "photo1.jpg"]

/-- Snapshot oracle: the directory stays empty forever. -/
def obsNever : Nat → List String := fun _ => []

/-- Pagination oracle where every browser operation succeeds. -/
def advOk : AdvanceEnv := ⟨.found, .ok, .ok⟩

/-- Pagination oracle where waiting for the next control throws. -/
def advNoNext : AdvanceEnv := ⟨.threw, .ok, .ok⟩

/-- An iteration whose download completes and whose advance succeeds. -/
def iterAdvance : IterEnv := ⟨.ok, obsQuick, advOk⟩

/-- An iteration whose download completes and whose advance finds no next
control. -/
def iterLast : IterEnv := ⟨.ok, obsQuick, advNoNext⟩

/-- An iteration whose download never materialises. -/
def iterStuck : IterEnv := ⟨.ok, obsNever, advOk⟩

/-- Trace of a run downloading one photo and then finding no next control. -/
def trOnePhoto : List Event :=
  [.clickImage, .downloadComplete "photo1.jpg", .endOfGallery]

/-- Trace of a run downloading two photos: one advance, then no next
control. -/
def trTwoPhotos : List Event :=
  [.clickImage, .downloadComplete "photo1.jpg", .advanced,
    .clickImage, .downloadComplete "photo1.jpg", .endOfGallery]

end Edupage

namespace Edupage

/-! ## Helper lemmas -/

/-- A successful `find?` splits the list at the first satisfying element. -/
theorem find?_eq_some_split {α : Type} (p : α → Bool) (l : List α) (a : α)
    (h : l.find? p = some a) :
    ∃ l₁ l₂, l = l₁ ++ a :: l₂ ∧ ∀ x ∈ l₁, p x = false := by
  induction l with
  | nil => simp [List.find?] at h
  | cons x xs ih =>
    by_cases hp : p x = true
    · rw [List.find?_cons_of_pos _ hp] at h
      injection h with h
      exact ⟨[], xs, by simp [h], by simp⟩
    · rw [List.find?_cons_of_neg _ hp] at h
      obtain ⟨l₁, l₂, rfl, hall⟩ := ih h
      refine ⟨x :: l₁, l₂, rfl, ?_⟩
      intro y hy
      rcases List.mem_cons.mp hy with rfl | hy'
      · exact Bool.eq_false_iff.mpr hp
      · exact hall y hy'

/-- A `completed` result of the poll loop pins down the poll that produced
it and the silence of all earlier polls. -/
theorem waitFrom_eq_completed (filesBefore : List String)
    (obs : Nat → List String) (fuel k : Nat) (f : String) (j : Nat)
    (h : waitFrom filesBefore obs k fuel = .completed f j) :
    k ≤ j ∧ j < k + fuel ∧ findCompleted filesBefore (obs j) = some f ∧
      ∀ i, k ≤ i → i < j → findCompleted filesBefore (obs i) = none := by
  induction fuel generalizing k with
  | zero => simp [waitFrom] at h
  | succ n ih =>
    rw [waitFrom] at h
    cases hfc : findCompleted filesBefore (obs k) with
    | some g =>
      rw [hfc] at h
      simp only [WaitOutcome.completed.injEq] at h
      obtain ⟨rfl, rfl⟩ := h
      exact ⟨le_refl _, by omega, hfc, fun i h1 h2 => absurd h2 (by omega)⟩
    | none =>
      rw [hfc] at h
      obtain ⟨h1, h2, h3, h4⟩ := ih (k + 1) h
      refine ⟨by omega, by omega, h3, ?_⟩
      intro i hi1 hi2
      rcases Nat.eq_or_lt_of_le hi1 with rfl | hi3
      · exact hfc
      · exact h4 i hi3 hi2

/-- The poll loop times out exactly when every poll within the fuel budget
sees no qualifying file. -/
theorem waitFrom_eq_timedOut_iff (filesBefore : List String)
    (obs : Nat → List String) (fuel k : Nat) :
    waitFrom filesBefore obs k fuel = .timedOut ↔
      ∀ j, k ≤ j → j < k + fuel → findCompleted filesBefore (obs j) = none := by
  induction fuel generalizing k with
  | zero =>
    simp only [waitFrom, true_iff]
    intro j h1 h2
    omega
  | succ n ih =>
    rw [waitFrom]
    cases hfc : findCompleted filesBefore (obs k) with
    | some g =>
      constructor
      · intro hcontr
        exact WaitOutcome.noConfusion hcontr
      · intro hall
        have h5 := hall k (le_refl k) (by omega)
        rw [hfc] at h5
        exact Option.noConfusion h5
    | none =>
      rw [ih]
      constructor
      · intro hall j h1 h2
        rcases Nat.eq_or_lt_of_le h1 with rfl | h3
        · exact hfc
        · exact hall j h3 (by omega)
      · intro hall j h1 h2
        exact hall j (by omega) (by omega)

/-- The ceiling-division poll count covers at least the whole timeout. -/
theorem timeout_le_numPolls_mul (timeout pollInterval : Nat)
    (hp : 0 < pollInterval) :
    timeout ≤ numPolls timeout pollInterval * pollInterval := by
  unfold numPolls
  rcases Nat.eq_zero_or_pos timeout with h0 | h1
  · simp [h0]
  · have ht : timeout + pollInterval - 1 = (timeout - 1) + pollInterval := by
      omega
    rw [ht, Nat.add_div_right _ hp, Nat.add_mul, Nat.one_mul]
    have h4 : (timeout - 1) / pollInterval * pollInterval +
        (timeout - 1) % pollInterval = timeout - 1 := by
      rw [Nat.mul_comm]
      exact Nat.div_add_mod _ _
    have h3 : (timeout - 1) % pollInterval < pollInterval :=
      Nat.mod_lt _ hp
    generalize (timeout - 1) / pollInterval * pollInterval = A at h4 ⊢
    omega

/-! ## Claim theorems -/

/-- C1: whenever `waitForDownloadCompletion` returns a filename, that
filename was absent from the "before" snapshot, is present in the snapshot
of the returning poll, lacks the `.crdownload` marker, is the first such
entry of the set difference (after − before) at that poll, and no earlier
poll had any qualifying new file. -/
theorem waitForDownloadCompletion_first_qualifying
    (obs : Nat → List String) (timeout pollInterval : Nat)
    (f : String) (k : Nat)
    (h : waitForDownloadCompletion obs timeout pollInterval =
      .completed f k) :
    f ∉ obs 0 ∧ f ∈ obs (k + 1) ∧ endsWithCrdownload f = false ∧
      (∃ l₁ l₂, newFiles (obs 0) (obs (k + 1)) = l₁ ++ f :: l₂ ∧
        ∀ g ∈ l₁, endsWithCrdownload g = true) ∧
      ∀ j, j < k → findCompleted (obs 0) (obs (j + 1)) = none := by
  unfold waitForDownloadCompletion at h
  obtain ⟨-, -, h3, h4⟩ :=
    waitFrom_eq_completed (obs 0) (fun i => obs (i + 1)) _ 0 f k h
  have h3' : (newFiles (obs 0) (obs (k + 1))).find?
      (fun g => !endsWithCrdownload g) = some f := h3
  have hmem : f ∈ newFiles (obs 0) (obs (k + 1)) :=
    List.mem_of_find?_eq_some h3'
  have hsat := List.find?_some h3'
  have hnotin : f ∉ obs 0 := by
    have := (List.mem_filter.mp hmem).2
    simpa using this
  have hin : f ∈ obs (k + 1) := (List.mem_filter.mp hmem).1
  obtain ⟨l₁, l₂, hsplit, hall⟩ := find?_eq_some_split _ _ _ h3'
  refine ⟨hnotin, hin, by simpa using hsat, ⟨l₁, l₂, hsplit, ?_⟩, ?_⟩
  · intro g hg
    have := hall g hg
    simpa using this
  · intro j hj
    exact h4 j (Nat.zero_le j) hj

/-- C1 witness: on a run where the first poll sees only the marker file
and the second poll sees the finished `photo1.jpg`, the theorem applies. -/
theorem waitForDownloadCompletion_first_qualifying_witness :
    "photo1.jpg" ∉ obsTwoPolls 0 ∧ "photo1.jpg" ∈ obsTwoPolls 2 ∧
      endsWithCrdownload "photo1.jpg" = false ∧
      (∃ l₁ l₂, newFiles (obsTwoPolls 0) (obsTwoPolls 2) =
          l₁ ++ "photo1.jpg" :: l₂ ∧
        ∀ g ∈ l₁, endsWithCrdownload g = true) ∧
      ∀ j, j < 1 → findCompleted (obsTwoPolls 0) (obsTwoPolls (j + 1)) =
        none :=
  waitForDownloadCompletion_first_qualifying obsTwoPolls 30000 500
    "photo1.jpg" 1 (by decide)

/-- C3: `waitForDownloadCompletion` throws `Download timed out` exactly
when no poll within the timeout budget sees a qualifying new file, and in
that case the elapsed wall time (`numPolls` iterations of one poll
interval each) is at least the configured timeout. -/
theorem waitForDownloadCompletion_timeout_iff
    (obs : Nat → List String) (timeout pollInterval : Nat)
    (hp : 0 < pollInterval) :
    (waitForDownloadCompletion obs timeout pollInterval = .timedOut ↔
      ∀ k, k < numPolls timeout pollInterval →
        findCompleted (obs 0) (obs (k + 1)) = none) ∧
      timeout ≤ numPolls timeout pollInterval * pollInterval := by
  constructor
  · unfold waitForDownloadCompletion
    rw [waitFrom_eq_timedOut_iff]
    constructor
    · intro hall k hk
      exact hall k (Nat.zero_le k) (by omega)
    · intro hall j h1 h2
      exact hall j (by omega)
  · exact timeout_le_numPolls_mul timeout pollInterval hp

/-- C3 witness: with a directory that stays empty and the configured
30000 ms timeout and 500 ms poll interval, the theorem applies. -/
theorem waitForDownloadCompletion_timeout_iff_witness :
    (waitForDownloadCompletion obsNever 30000 500 = .timedOut ↔
      ∀ k, k < numPolls 30000 500 →
        findCompleted (obsNever 0) (obsNever (k + 1)) = none) ∧
      30000 ≤ numPolls 30000 500 * 500 :=
  waitForDownloadCompletion_timeout_iff obsNever 30000 500 (by decide)

/-! ## Unfolding lemmas for the traversal loop -/

theorem mainLoop_cons_threw (t p : Nat) (e : IterEnv) (rest : List IterEnv)
    (c : Nat) (h : e.clickImageLink = .threw) :
    mainLoop t p (e :: rest) c = ([.clickImage], .fatal .imageClickError) := by
  simp [mainLoop, h]

theorem mainLoop_cons_timedOut (t p : Nat) (e : IterEnv)
    (rest : List IterEnv) (c : Nat) (h1 : e.clickImageLink = .ok)
    (h2 : waitForDownloadCompletion e.obs t p = .timedOut) :
    mainLoop t p (e :: rest) c = ([.clickImage], .fatal .downloadTimeout) := by
  simp [mainLoop, h1, h2]

theorem mainLoop_cons_advance (t p : Nat) (e : IterEnv)
    (rest : List IterEnv) (c : Nat) (f : String) (j : Nat)
    (h1 : e.clickImageLink = .ok)
    (h2 : waitForDownloadCompletion e.obs t p = .completed f j)
    (h3 : handleNextButton e.advance = true) :
    mainLoop t p (e :: rest) c =
      (.clickImage :: .downloadComplete f :: .advanced ::
          (mainLoop t p rest (c + 1)).1,
        (mainLoop t p rest (c + 1)).2) := by
  simp [mainLoop, h1, h2, h3]

theorem mainLoop_cons_stop (t p : Nat) (e : IterEnv)
    (rest : List IterEnv) (c : Nat) (f : String) (j : Nat)
    (h1 : e.clickImageLink = .ok)
    (h2 : waitForDownloadCompletion e.obs t p = .completed f j)
    (h3 : handleNextButton e.advance = false) :
    mainLoop t p (e :: rest) c =
      ([.clickImage, .downloadComplete f, .endOfGallery],
        .success (c + 1)) := by
  simp [mainLoop, h1, h2, h3]

theorem countClicks_cons (a : Event) (tr : List Event) :
    countClicks (a :: tr) = countClicks tr + (if isClickEvent a then 1 else 0) :=
  List.countP_cons _ _ _

theorem countDownloads_cons (a : Event) (tr : List Event) :
    countDownloads (a :: tr) =
      countDownloads tr + (if isDownloadEvent a then 1 else 0) :=
  List.countP_cons _ _ _

theorem countAdvanced_cons (a : Event) (tr : List Event) :
    countAdvanced (a :: tr) =
      countAdvanced tr + (if isAdvancedEvent a then 1 else 0) :=
  List.countP_cons _ _ _

/-- In a normally terminating run the reported count is the photo counter
plus the downloads seen, and downloads exceed advances by exactly one. -/
theorem mainLoop_success_count (t p : Nat) (envs : List IterEnv) :
    ∀ c n tr, mainLoop t p envs c = (tr, .success n) →
      n = c + countDownloads tr ∧
        countDownloads tr = countAdvanced tr + 1 := by
  induction envs with
  | nil =>
    intro c n tr h
    simp [mainLoop] at h
  | cons e rest ih =>
    intro c n tr h
    cases hclick : e.clickImageLink with
    | threw =>
      rw [mainLoop_cons_threw t p e rest c hclick] at h
      simp at h
    | ok =>
      cases hdl : waitForDownloadCompletion e.obs t p with
      | timedOut =>
        rw [mainLoop_cons_timedOut t p e rest c hclick hdl] at h
        simp at h
      | completed f j =>
        cases hadv : handleNextButton e.advance with
        | false =>
          rw [mainLoop_cons_stop t p e rest c f j hclick hdl hadv] at h
          simp only [Prod.mk.injEq] at h
          obtain ⟨htr, hout⟩ := h
          injection hout with h5
          subst h5
          subst htr
          constructor <;>
            simp [countDownloads, countAdvanced, List.countP_cons,
              isDownloadEvent, isAdvancedEvent]
        | true =>
          rcases hrec : mainLoop t p rest (c + 1) with ⟨tr', out'⟩
          rw [mainLoop_cons_advance t p e rest c f j hclick hdl hadv,
            hrec] at h
          simp only [Prod.mk.injEq] at h
          obtain ⟨htr, hout⟩ := h
          subst htr
          obtain ⟨ih1, ih2⟩ := ih (c + 1) n tr' (by rw [hrec, hout])
          constructor <;>
            simp [countDownloads_cons, countAdvanced_cons,
              isDownloadEvent, isAdvancedEvent] <;>
            omega

/-- Every prefix of a trace holds at most one unconfirmed click: the
downloads never outnumber the clicks, and the clicks never exceed the
confirmed downloads by more than one. -/
theorem mainLoop_serialized (t p : Nat) (envs : List IterEnv) :
    ∀ c tr out, mainLoop t p envs c = (tr, out) →
      ∀ k, countDownloads (tr.take k) ≤ countClicks (tr.take k) ∧
        countClicks (tr.take k) ≤ countDownloads (tr.take k) + 1 := by
  induction envs with
  | nil =>
    intro c tr out h k
    simp only [mainLoop, Prod.mk.injEq] at h
    obtain ⟨htr, -⟩ := h
    subst htr
    simp [countDownloads, countClicks]
  | cons e rest ih =>
    intro c tr out h k
    cases hclick : e.clickImageLink with
    | threw =>
      rw [mainLoop_cons_threw t p e rest c hclick] at h
      simp only [Prod.mk.injEq] at h
      obtain ⟨htr, -⟩ := h
      subst htr
      cases k with
      | zero => simp [countDownloads, countClicks]
      | succ m =>
        simp [countDownloads, countClicks, List.countP_cons,
          isClickEvent, isDownloadEvent]
    | ok =>
      cases hdl : waitForDownloadCompletion e.obs t p with
      | timedOut =>
        rw [mainLoop_cons_timedOut t p e rest c hclick hdl] at h
        simp only [Prod.mk.injEq] at h
        obtain ⟨htr, -⟩ := h
        subst htr
        cases k with
        | zero => simp [countDownloads, countClicks]
        | succ m =>
          simp [countDownloads, countClicks, List.countP_cons,
            isClickEvent, isDownloadEvent]
      | completed f j =>
        cases hadv : handleNextButton e.advance with
        | false =>
          rw [mainLoop_cons_stop t p e rest c f j hclick hdl hadv] at h
          simp only [Prod.mk.injEq] at h
          obtain ⟨htr, -⟩ := h
          subst htr
          match k with
          | 0 => simp [countDownloads, countClicks]
          | 1 =>
            simp [countDownloads, countClicks, List.countP_cons,
              isClickEvent, isDownloadEvent]
          | 2 =>
            simp [countDownloads, countClicks, List.countP_cons,
              isClickEvent, isDownloadEvent]
          | m + 3 =>
            simp [countDownloads, countClicks, List.countP_cons,
              isClickEvent, isDownloadEvent]
        | true =>
          rcases hrec : mainLoop t p rest (c + 1) with ⟨tr', out'⟩
          rw [mainLoop_cons_advance t p e rest c f j hclick hdl hadv,
            hrec] at h
          simp only [Prod.mk.injEq] at h
          obtain ⟨htr, -⟩ := h
          subst htr
          have ihk := ih (c + 1) tr' out' hrec
          match k with
          | 0 => simp [countDownloads, countClicks]
          | 1 =>
            simp [countDownloads, countClicks, List.countP_cons,
              isClickEvent, isDownloadEvent]
          | 2 =>
            simp [countDownloads, countClicks, List.countP_cons,
              isClickEvent, isDownloadEvent]
          | m + 3 =>
            obtain ⟨ih1, ih2⟩ := ihk m
            simp only [List.take_succ_cons, countClicks_cons,
              countDownloads_cons, isClickEvent, isDownloadEvent] at *
            omega

/-! ## Traversal-loop claim theorems -/

/-- C2: in every normally terminating run the reported photo count equals
the number of confirmed download completions in the trace, which is the
number of successful advances plus one. -/
theorem reported_photoCount_eq_downloads (t p : Nat) (envs : List IterEnv)
    (tr : List Event) (n : Nat)
    (h : mainLoop t p envs 0 = (tr, .success n)) :
    n = countDownloads tr ∧ n = countAdvanced tr + 1 := by
  obtain ⟨h1, h2⟩ := mainLoop_success_count t p envs 0 n tr h
  omega

/-- C2 witness: a two-photo run (one advance, then no next control)
reports 2, which is its download count and its advance count plus one. -/
theorem reported_photoCount_eq_downloads_witness :
    2 = countDownloads trTwoPhotos ∧ 2 = countAdvanced trTwoPhotos + 1 :=
  reported_photoCount_eq_downloads 30000 500 [iterAdvance, iterLast]
    trTwoPhotos 2 (by decide)

/-- C9: a normally terminating run reports at least one photo; there is no
normal-termination path reporting zero. -/
theorem reported_photoCount_pos (t p : Nat) (envs : List IterEnv)
    (tr : List Event) (n : Nat)
    (h : mainLoop t p envs 0 = (tr, .success n)) : 1 ≤ n := by
  obtain ⟨h1, h2⟩ := mainLoop_success_count t p envs 0 n tr h
  omega

/-- C9 witness: the one-photo run reports 1. -/
theorem reported_photoCount_pos_witness : 1 ≤ 1 :=
  reported_photoCount_pos 30000 500 [iterLast] trOnePhoto 1 (by decide)

/-- C8: downloads are strictly serialized — in every prefix of every run's
trace the number of download-triggering clicks never exceeds the confirmed
completions by more than one (and completions never outnumber clicks), so
the next click is never issued before the current download is confirmed. -/
theorem downloads_strictly_serialized (t p : Nat) (envs : List IterEnv)
    (c : Nat) (tr : List Event) (out : RunOutcome)
    (h : mainLoop t p envs c = (tr, out)) (k : Nat) :
    countDownloads (tr.take k) ≤ countClicks (tr.take k) ∧
      countClicks (tr.take k) ≤ countDownloads (tr.take k) + 1 :=
  mainLoop_serialized t p envs c tr out h k

/-- C8 witness: in the one-photo run, after the first event (the click)
there is one click and zero completed downloads. -/
theorem downloads_strictly_serialized_witness :
    countDownloads (trOnePhoto.take 1) ≤ countClicks (trOnePhoto.take 1) ∧
      countClicks (trOnePhoto.take 1) ≤ countDownloads (trOnePhoto.take 1) + 1 :=
  downloads_strictly_serialized 30000 500 [iterLast] 0 trOnePhoto
    (.success 1) (by decide) 1

/-- C5: a download timeout reached mid-run aborts the whole run at that
very iteration — no skipping, no retrying, whatever iterations would have
followed — and at process level the browser is still closed (the
`finally`) and the exit code is nonzero. -/
theorem downloadTimeout_aborts_run (t p : Nat) (e : IterEnv)
    (rest : List IterEnv) (c : Nat)
    (h1 : e.clickImageLink = .ok)
    (h2 : waitForDownloadCompletion e.obs t p = .timedOut) :
    mainLoop t p (e :: rest) c = ([.clickImage], .fatal .downloadTimeout) ∧
      runAfterBrowser t p (e :: rest) =
        ⟨some 1, true, none⟩ := by
  refine ⟨mainLoop_cons_timedOut t p e rest c h1 h2, ?_⟩
  unfold runAfterBrowser
  rw [mainLoop_cons_timedOut t p e rest 0 h1 h2]

/-- C5 witness: a stuck first download aborts the run with exit code 1 and
a closed browser. -/
theorem downloadTimeout_aborts_run_witness :
    mainLoop 30000 500 [iterStuck] 0 =
        ([.clickImage], .fatal .downloadTimeout) ∧
      runAfterBrowser 30000 500 [iterStuck] = ⟨some 1, true, none⟩ :=
  downloadTimeout_aborts_run 30000 500 iterStuck [] 0 (by decide) (by decide)

/-- C4: any exception in the pagination step — waiting for the next
control, clicking it, or waiting for the post-click image link — makes
`handleNextButton` answer `false`, which ends the loop normally with the
completion message; and every normally ending run exits 0 with the browser
closed. -/
theorem advance_failure_is_endOfGallery (t p : Nat) (e : IterEnv)
    (rest : List IterEnv) (c : Nat) (f : String) (j : Nat)
    (h1 : e.clickImageLink = .ok)
    (h2 : waitForDownloadCompletion e.obs t p = .completed f j)
    (herr : e.advance.waitNextButton = .threw ∨
      (e.advance.waitNextButton = .found ∧ e.advance.clickNext = .threw) ∨
      (e.advance.waitNextButton = .found ∧ e.advance.clickNext = .ok ∧
        e.advance.waitImageLink = .threw)) :
    handleNextButton e.advance = false ∧
      mainLoop t p (e :: rest) c =
        ([.clickImage, .downloadComplete f, .endOfGallery],
          .success (c + 1)) ∧
      ∀ envs tr n, mainLoop t p envs 0 = (tr, .success n) →
        runAfterBrowser t p envs = ⟨some 0, true, some n⟩ := by
  have hfalse : handleNextButton e.advance = false := by
    rcases herr with ha | ⟨ha, hb⟩ | ⟨ha, hb, hc⟩ <;>
      simp [handleNextButton, *]
  refine ⟨hfalse, mainLoop_cons_stop t p e rest c f j h1 h2 hfalse, ?_⟩
  intro envs tr n hm
  unfold runAfterBrowser
  rw [hm]

/-- C4 witness: a thrown wait for the next control after the first
download ends the run normally with one photo reported. -/
theorem advance_failure_is_endOfGallery_witness :
    handleNextButton iterLast.advance = false ∧
      mainLoop 30000 500 [iterLast] 0 =
        ([.clickImage, .downloadComplete "photo1.jpg", .endOfGallery],
          .success 1) ∧
      ∀ envs tr n, mainLoop 30000 500 envs 0 = (tr, .success n) →
        runAfterBrowser 30000 500 envs = ⟨some 0, true, some n⟩ :=
  advance_failure_is_endOfGallery 30000 500 iterLast [] 0 "photo1.jpg" 0
    (by decide) (by decide) (Or.inl (by decide))

/-- C6: a nonempty destination directory makes the startup phase abort
with exit code 1 before any browser is created and with the directory
contents untouched, and the whole program then exits 1. -/
theorem nonempty_dir_precondition_abort (files : List String)
    (h : 0 < files.length) (a b url : String) (t p : Nat)
    (envs : List IterEnv) (hurl : isValidUrl url = true) :
    mainStartup (some files) = ⟨some 1, false, files⟩ ∧
      program [a, b, url] (some files) t p envs = ⟨some 1, false, none⟩ := by
  have hstart : mainStartup (some files) = ⟨some 1, false, files⟩ := by
    unfold mainStartup mkdirRecursive checkDirectoryEmpty
    simp only [Option.getD_some]
    rw [if_pos h]
  refine ⟨hstart, ?_⟩
  unfold program programStart
  simp [hurl, hstart]

/-- C6 witness: a directory with one leftover file aborts the run before
the browser starts and keeps its contents. -/
theorem nonempty_dir_precondition_abort_witness :
    mainStartup (some ["leftover.jpg"]) =
        ⟨some 1, false, ["leftover.jpg"]⟩ ∧
      program ["node", "index.js", "https://example.com"]
          (some ["leftover.jpg"]) 30000 500 [] =
        ⟨some 1, false, none⟩ :=
  nonempty_dir_precondition_abort ["leftover.jpg"] (by decide)
    "node" "index.js" "https://example.com" 30000 500 [] (by decide)

/-- C7 counterexample: `gallery-1` is a syntactically valid
relative-reference URL, yet the validation step rejects it — `new URL`
throws without a base — so the program exits 1 with the invalid-URL
message on a valid relative-syntax URL. -/
theorem relative_url_rejected :
    specValidRelativeRef "gallery-1" = true ∧
      isValidUrl "gallery-1" = false ∧
      programStart ["node", "index.js", "gallery-1"] = .exitInvalidUrl := by
  decide

/-- Colon-free inputs make the scheme split fail. -/
theorem splitAtColon_eq_none (l : List Char)
    (h : l.all (fun c => !(c == ':')) = true) :
    splitAtColon l = none := by
  induction l with
  | nil => rfl
  | cons c cs ih =>
    rw [List.all_cons] at h
    simp only [Bool.and_eq_true] at h
    obtain ⟨h1, h2⟩ := h
    have hc : ¬(c = ':') := by simpa using h1
    rw [splitAtColon, if_neg hc, ih h2]

/-- Membership survives `dropWhile` backwards. -/
theorem mem_of_mem_dropWhile {α : Type} (p : α → Bool) (l : List α) (c : α)
    (h : c ∈ l.dropWhile p) : c ∈ l := by
  induction l with
  | nil => simp at h
  | cons x xs ih =>
    simp only [List.dropWhile_cons] at h
    by_cases hp : p x = true
    · rw [if_pos hp] at h
      exact List.mem_cons_of_mem x (ih h)
    · rw [if_neg hp] at h
      exact h

/-- The input preprocessing only removes characters, so a colon-free
input stays colon-free. -/
theorem preprocess_keeps_colonFree (l : List Char)
    (h : l.all (fun c => !(c == ':')) = true) :
    (preprocessUrlInput l).all (fun c => !(c == ':')) = true := by
  rw [List.all_eq_true] at h ⊢
  intro c hc
  apply h
  unfold preprocessUrlInput at hc
  have hc1 := List.mem_of_mem_filter hc
  rw [List.mem_reverse] at hc1
  have hc2 := mem_of_mem_dropWhile _ _ _ hc1
  rw [List.mem_reverse] at hc2
  exact mem_of_mem_dropWhile _ _ _ hc2

/-- C7 amended: the validation step raises `InvalidInput` (exit 1) for
exactly the strings the `URL` constructor rejects without a base — every
malformed string and every syntactically valid relative reference among
them — and never for a parseable absolute URL string. -/
theorem url_validation_requires_absolute (a b s u : String)
    (hrel : specValidRelativeRef s = true)
    (habs : urlAccepts u.data = true) :
    (∀ w : String, programStart [a, b, w] = .exitInvalidUrl ↔
      urlAccepts w.data = false) ∧
      isValidUrl s = false ∧ programStart [a, b, s] = .exitInvalidUrl ∧
      isValidUrl u = true ∧ programStart [a, b, u] = .run u := by
  have hiff : ∀ w : String, programStart [a, b, w] = .exitInvalidUrl ↔
      urlAccepts w.data = false := by
    intro w
    unfold programStart isValidUrl
    rw [if_neg (by simp)]
    simp only [List.get?]
    cases hv : urlAccepts w.data with
    | true => simp [hv]
    | false => simp [hv]
  have hnc : s.data.all (fun c => !(c == ':')) = true := by
    unfold specValidRelativeRef at hrel
    simp only [Bool.and_eq_true] at hrel
    exact hrel.2
  have hinv : isValidUrl s = false := by
    unfold isValidUrl urlAccepts
    rw [splitAtColon_eq_none _ (preprocess_keeps_colonFree s.data hnc)]
  refine ⟨hiff, hinv, (hiff s).mpr hinv, habs, ?_⟩
  unfold programStart
  simp [isValidUrl, habs]

/-- C7 amended witness: the relative reference `photos/1` is rejected,
the absolute `https://example.com` is accepted, and the malformed
`http://exa mple.com` (forbidden host character) and `http://a:99999999`
(port out of range) are rejected with `InvalidInput`. -/
theorem url_validation_requires_absolute_witness :
    (programStart ["node", "index.js", "http://exa mple.com"] =
        .exitInvalidUrl ↔
      urlAccepts "http://exa mple.com".data = false) ∧
      (programStart ["node", "index.js", "http://a:99999999"] =
          .exitInvalidUrl ↔
        urlAccepts "http://a:99999999".data = false) ∧
      isValidUrl "photos/1" = false ∧
      programStart ["node", "index.js", "photos/1"] = .exitInvalidUrl ∧
      isValidUrl "https://example.com" = true ∧
      programStart ["node", "index.js", "https://example.com"] =
        .run "https://example.com" := by
  have h := url_validation_requires_absolute "node" "index.js" "photos/1"
    "https://example.com" (by decide) (by decide)
  exact ⟨h.1 "http://exa mple.com", h.1 "http://a:99999999", h.2.1,
    h.2.2.1, h.2.2.2.1, h.2.2.2.2⟩

/-- C10: every command-line argument beyond the gallery URL (the third
`argv` entry) is ignored — two invocations with the same URL and any
trailing arguments behave identically on every directory state and every
browser environment. -/
theorem extra_arguments_ignored (a b url : String)
    (rest rest' : List String) (dir : Option (List String)) (t p : Nat)
    (envs : List IterEnv) :
    program (a :: b :: url :: rest) dir t p envs =
      program (a :: b :: url :: rest') dir t p envs := by
  have hlen : ¬ (rest.length + 1 + 1 + 1 < 3) := by omega
  have hlen' : ¬ (rest'.length + 1 + 1 + 1 < 3) := by omega
  unfold program programStart
  simp [hlen, hlen']

end Edupage
